import Mathlib

/-!
Shallow embedding of the ESG Report authentication server
(`src/server/main.py` and `src/server/newMain.py`) and proofs about its
OTP / session state machine.

Modelling conventions:
* A Python `dict` keyed by email strings is an association list
  (`Store α`); assignment overwrites, `del` / `pop` removes the key.
* Timestamps (`time.time()`) are integers (`Int`); a single `now` stands
  for the clock readings taken inside one request handler.
* A JWT is a record of its claims together with the key it was signed
  with (`Token.key`); `jwt.decode` with the server secret succeeds
  exactly when the keys match and the `exp` claim has not passed
  (PyJWT raises `ExpiredSignatureError` iff `exp < now`).
* The external e-mail send (`send_email`) is an external capability and
  enters the model as a boolean parameter `sendOk`.
* JSON response bodies are literal key/value lists (`Body`) mirroring
  the Python dict literals returned by each endpoint; HTTP errors are
  the (status, detail) pair of the raised `HTTPException`.
-/

/-- A Python dict keyed by strings, as an association list. -/
abbrev Store (α : Type) := List (String × α)

namespace Store

/-- `d.get(k)` / `k in d`: first binding of `k`, if any. -/
def lookup {α : Type} : Store α → String → Option α
  | [], _ => none
  | (k', v) :: rest, k => if k' = k then some v else lookup rest k

/-- `d[k] = v`: overwrite the binding of `k`. -/
def set {α : Type} : Store α → String → α → Store α
  | [], k, v => [(k, v)]
  | (k', v') :: rest, k, v =>
      if k' = k then (k, v) :: rest else (k', v') :: set rest k v

/-- `del d[k]` / `d.pop(k, None)`: remove the binding of `k`. -/
def erase {α : Type} : Store α → String → Store α
  | [], _ => []
  | (k', v') :: rest, k =>
      if k' = k then erase rest k else (k', v') :: erase rest k

end Store

/-- A decoded JWT: its claims plus the key it was signed with.
`create_access_token` puts `sub`, optionally `name` / `company`, and
`exp` into the payload and signs with the server secret. -/
structure Token where
  sub : Option String
  name : Option String
  company : Option String
  exp : Int
  key : String
deriving DecidableEq, Repr

/-- `ACCESS_TOKEN_EXPIRE_MINUTES = 30`, in seconds. -/
def accessTokenExpireSeconds : Int := 30 * 60

/-- `create_access_token(data)` with the default expiry: token carrying
the given claims, `exp = now + 30 minutes`, signed with `secret`. -/
def create_access_token (secret : String) (now : Int)
    (sub name company : Option String) : Token :=
  { sub := sub, name := name, company := company,
    exp := now + accessTokenExpireSeconds, key := secret }

/-- `verify_token(token)`: `jwt.decode` then `payload.get("sub")`;
`None` on any `PyJWTError` (bad signature or `exp < now`). -/
def verify_token (secret : String) (now : Int) (t : Token) :
    Option String :=
  if t.key ≠ secret then none
  else if t.exp < now then none
  else t.sub

/-- One entry of `otp_store`:
`{"code", "expires", "attempts", "user_name", "company"}`. -/
structure OtpRecord where
  code : String
  expires : Int
  attempts : Nat
  user_name : Option String
  company : Option String
deriving DecidableEq, Repr

/-- One entry of `rate_limit_store`: `{"last_request", "count"}`. -/
structure RateRecord where
  last_request : Int
  count : Nat
deriving DecidableEq, Repr

/-- One entry of `user_sessions`: `{"token", "expires"}`. -/
structure Session where
  token : Token
  expires : Int
deriving DecidableEq, Repr

/-- The three module-level dicts of the server process. -/
structure ServerState where
  otp_store : Store OtpRecord
  rate_limit_store : Store RateRecord
  user_sessions : Store Session
deriving DecidableEq, Repr

/-- `check_rate_limit(email)`: fixed 900 s window, limit 3; returns the
admission verdict and the updated `rate_limit_store`. -/
def check_rate_limit (now : Int) (email : String)
    (s : Store RateRecord) : Bool × Store RateRecord :=
  match s.lookup email with
  | some r =>
      if now - r.last_request > 900 then
        (true, s.set email { last_request := now, count := 1 })
      else if r.count ≥ 3 then
        (false, s)
      else
        (true, s.set email { last_request := now, count := r.count + 1 })
  | none => (true, s.set email { last_request := now, count := 1 })

/-- A value inside a nested JSON object of a response body (the nested
objects the server returns only hold strings or `None`). -/
inductive JLeaf where
  | s (v : String)
  | opt (v : Option String)
deriving DecidableEq, Repr

/-- A JSON value as it appears at the top level of a response body. -/
inductive JVal where
  | s (v : String)
  | i (v : Int)
  | b (v : Bool)
  | tok (v : Token)
  | opt (v : Option String)
  | obj (fields : List (String × JLeaf))
deriving DecidableEq, Repr

/-- A JSON response body: the keys and values of the returned dict. -/
abbrev Body := List (String × JVal)

/-- Whether a body has a given top-level key. -/
def Body.hasKey (b : Body) (k : String) : Bool :=
  b.any (fun p => p.1 = k)

/-- Value of a top-level key of a body, if present. -/
def Body.getKey (b : Body) (k : String) : Option JVal :=
  (b.find? (fun p => p.1 = k)).map (fun p => p.2)

/-- A raised `HTTPException`: status code and detail message. -/
structure HttpError where
  status : Nat
  detail : String
deriving DecidableEq, Repr

/-! ## Endpoints of `src/server/main.py` -/

namespace MainPy

/-- `POST /send-otp` (`main.py`): rate limiting, ledger write, external
send (`sendOk` is the outcome of `send_email`), rollback on failure.
`otp` stands for the code produced by `generate_otp()`. -/
def send_otp (sendOk : Bool) (now : Int) (email : String)
    (name company : Option String) (otp : String) (s : ServerState) :
    Except HttpError Body × ServerState :=
  let rl := check_rate_limit now email s.rate_limit_store
  let s1 : ServerState := { s with rate_limit_store := rl.2 }
  if rl.1 = false then
    (Except.error ⟨429,
      "Too many OTP requests. Please wait 15 minutes before trying again."⟩,
     s1)
  else
    let record : OtpRecord :=
      { code := otp, expires := now + 300, attempts := 0,
        user_name := name, company := company }
    let s2 : ServerState := { s1 with otp_store := s1.otp_store.set email record }
    if sendOk then
      (Except.ok [("success", JVal.b true),
                  ("message", JVal.s "OTP sent successfully"),
                  ("expires_in", JVal.i 300)], s2)
    else
      (Except.error ⟨500, "Failed to send email"⟩,
       { s2 with otp_store := s2.otp_store.erase email })

/-- `POST /verify-otp` (`main.py`): expiry check, attempt budget,
unconditional increment, code comparison, token + session issuance,
one-shot ledger cleanup. -/
def verify_otp (secret : String) (now : Int) (email otp : String)
    (s : ServerState) : Except HttpError Body × ServerState :=
  match s.otp_store.lookup email with
  | none => (Except.error ⟨400, "No OTP sent for this email"⟩, s)
  | some record =>
    if now > record.expires then
      (Except.error ⟨400, "OTP has expired"⟩,
       { s with otp_store := s.otp_store.erase email })
    else if record.attempts ≥ 3 then
      (Except.error ⟨400, "Too many failed attempts. Please request a new OTP."⟩,
       { s with otp_store := s.otp_store.erase email })
    else
      let record' : OtpRecord := { record with attempts := record.attempts + 1 }
      let s1 : ServerState := { s with otp_store := s.otp_store.set email record' }
      if otp ≠ record'.code then
        (Except.error ⟨400, "Invalid OTP"⟩, s1)
      else
        let access_token :=
          create_access_token secret now (some email) record.user_name record.company
        let s2 : ServerState :=
          { s1 with user_sessions :=
              (s1.user_sessions.set email
                { token := access_token, expires := now + accessTokenExpireSeconds }) }
        let s3 : ServerState := { s2 with otp_store := s2.otp_store.erase email }
        (Except.ok [("success", JVal.b true),
                    ("message", JVal.s "OTP verified successfully"),
                    ("access_token", JVal.tok access_token),
                    ("token_type", JVal.s "bearer"),
                    ("expires_in", JVal.i accessTokenExpireSeconds),
                    ("user_data", JVal.obj
                      [("email", JLeaf.s email),
                       ("name", JLeaf.opt record.user_name),
                       ("company", JLeaf.opt record.company)])], s3)

/-- `POST /verify-token` (`main.py`): token check, then session
double-check (`if not email` is Python truthiness, so an empty subject
is also rejected). -/
def verify_token_endpoint (secret : String) (now : Int) (tok : Token)
    (s : ServerState) : Except HttpError Body × ServerState :=
  match verify_token secret now tok with
  | none => (Except.error ⟨401, "Invalid or expired token"⟩, s)
  | some email =>
    if email = "" then
      (Except.error ⟨401, "Invalid or expired token"⟩, s)
    else
      match s.user_sessions.lookup email with
      | none => (Except.error ⟨401, "Session not found"⟩, s)
      | some session =>
        if now > session.expires then
          (Except.error ⟨401, "Session expired"⟩,
           { s with user_sessions := s.user_sessions.erase email })
        else
          (Except.ok [("success", JVal.b true),
                      ("message", JVal.s "Token is valid"),
                      ("user_data", JVal.obj [("email", JLeaf.s email)])], s)

/-- `POST /refresh-token` (`main.py`): requires a live session;
re-issues the token (claims: only `sub`) and overwrites the session. -/
def refresh_token (secret : String) (now : Int) (email : String)
    (s : ServerState) : Except HttpError Body × ServerState :=
  match s.user_sessions.lookup email with
  | none => (Except.error ⟨401, "No active session found"⟩, s)
  | some session =>
    if now > session.expires then
      (Except.error ⟨401, "Session expired"⟩,
       { s with user_sessions := s.user_sessions.erase email })
    else
      let access_token := create_access_token secret now (some email) none none
      let s1 : ServerState :=
        { s with user_sessions :=
            (s.user_sessions.set email
              { token := access_token, expires := now + accessTokenExpireSeconds }) }
      (Except.ok [("success", JVal.b true),
                  ("message", JVal.s "Token refreshed successfully"),
                  ("access_token", JVal.tok access_token),
                  ("token_type", JVal.s "bearer"),
                  ("expires_in", JVal.i accessTokenExpireSeconds)], s1)

end MainPy

/-! ## Endpoints of `src/server/newMain.py`

`check_rate_limit`, `verify_token` and `create_access_token` are
line-for-line identical in the two files, so the definitions above are
shared; the endpoints below differ in detail messages and response
bodies. -/

namespace NewMainPy

/-- `POST /send-otp` (`newMain.py`). -/
def send_otp (sendOk : Bool) (now : Int) (email : String)
    (name company : Option String) (otp : String) (s : ServerState) :
    Except HttpError Body × ServerState :=
  let rl := check_rate_limit now email s.rate_limit_store
  let s1 : ServerState := { s with rate_limit_store := rl.2 }
  if rl.1 = false then
    (Except.error ⟨429, "Too many OTP requests. Try again later."⟩, s1)
  else
    let record : OtpRecord :=
      { code := otp, expires := now + 300, attempts := 0,
        user_name := name, company := company }
    let s2 : ServerState := { s1 with otp_store := s1.otp_store.set email record }
    if sendOk then
      (Except.ok [("success", JVal.b true),
                  ("message", JVal.s "OTP sent"),
                  ("expires_in", JVal.i 300)], s2)
    else
      (Except.error ⟨500, "Failed to send email"⟩,
       { s2 with otp_store := s2.otp_store.erase email })

/-- `POST /verify-otp` (`newMain.py`): same ledger logic as `main.py`;
the 200 body has no `user_data` key. -/
def verify_otp (secret : String) (now : Int) (email otp : String)
    (s : ServerState) : Except HttpError Body × ServerState :=
  match s.otp_store.lookup email with
  | none => (Except.error ⟨400, "No OTP sent"⟩, s)
  | some record =>
    if now > record.expires then
      (Except.error ⟨400, "OTP expired"⟩,
       { s with otp_store := s.otp_store.erase email })
    else if record.attempts ≥ 3 then
      (Except.error ⟨400, "Too many failed attempts"⟩,
       { s with otp_store := s.otp_store.erase email })
    else
      let record' : OtpRecord := { record with attempts := record.attempts + 1 }
      let s1 : ServerState := { s with otp_store := s.otp_store.set email record' }
      if otp ≠ record'.code then
        (Except.error ⟨400, "Invalid OTP"⟩, s1)
      else
        let token :=
          create_access_token secret now (some email) record.user_name record.company
        let s2 : ServerState :=
          { s1 with user_sessions :=
              (s1.user_sessions.set email
                { token := token, expires := now + accessTokenExpireSeconds }) }
        let s3 : ServerState := { s2 with otp_store := s2.otp_store.erase email }
        (Except.ok [("success", JVal.b true),
                    ("message", JVal.s "OTP verified"),
                    ("access_token", JVal.tok token),
                    ("token_type", JVal.s "bearer"),
                    ("expires_in", JVal.i accessTokenExpireSeconds)], s3)

/-- `POST /verify-token` (`newMain.py`): the invalid-token and
missing-session cases share one 401 branch. -/
def verify_token_endpoint (secret : String) (now : Int) (tok : Token)
    (s : ServerState) : Except HttpError Body × ServerState :=
  match verify_token secret now tok with
  | none => (Except.error ⟨401, "Invalid or expired token"⟩, s)
  | some email =>
    if email = "" ∨ s.user_sessions.lookup email = none then
      (Except.error ⟨401, "Invalid or expired token"⟩, s)
    else
      match s.user_sessions.lookup email with
      | none => (Except.error ⟨401, "Invalid or expired token"⟩, s)
      | some session =>
        if now > session.expires then
          (Except.error ⟨401, "Session expired"⟩,
           { s with user_sessions := s.user_sessions.erase email })
        else
          (Except.ok [("success", JVal.b true),
                      ("message", JVal.s "Token is valid"),
                      ("user_data", JVal.obj [("email", JLeaf.s email)])], s)

end NewMainPy

/-! ## Observation helpers and concrete states used in the proofs -/

/-- `True` iff an endpoint result is a 200 whose body has key `k`. -/
def okWithKey (r : Except HttpError Body) (k : String) : Bool :=
  match r with
  | Except.ok b => b.hasKey k
  | Except.error _ => false

/-- A pending challenge from an earlier admitted request, present in the
ledger before a later `/send-otp` call. -/
def c3PriorRecord : OtpRecord :=
  { code := "111111", expires := 1000, attempts := 1,
    user_name := none, company := none }

/-- Ledger holding `c3PriorRecord` for `a@x.com`; empty rate and
session stores. -/
def c3State : ServerState :=
  { otp_store := [("a@x.com", c3PriorRecord)],
    rate_limit_store := [], user_sessions := [] }

/-- Rate store after a first OTP request at `t = 0`. -/
def c4Window1 : Store RateRecord := (check_rate_limit 0 "a@x.com" []).2

/-- Rate store after a second request at `t = 800`. -/
def c4Window2 : Store RateRecord := (check_rate_limit 800 "a@x.com" c4Window1).2

/-- Rate store after a third request at `t = 900`. -/
def c4Window3 : Store RateRecord := (check_rate_limit 900 "a@x.com" c4Window2).2

/-- A fresh, unexpired challenge with metadata, for exercising a
successful `/verify-otp` on both variants. -/
def c9Record : OtpRecord :=
  { code := "654321", expires := 600, attempts := 0,
    user_name := some "Ada", company := some "Acme" }

/-- State holding `c9Record` for `a@x.com`. -/
def c9State : ServerState :=
  { otp_store := [("a@x.com", c9Record)],
    rate_limit_store := [], user_sessions := [] }

/-- State whose rate window for `a@x.com` has `count = 3` and is old
enough (900 s) to roll over on the next request. -/
def c10State : ServerState :=
  { otp_store := [],
    rate_limit_store := [("a@x.com", { last_request := 0, count := 3 })],
    user_sessions := [] }

/-! ## Store lemmas -/

theorem Store.lookup_set_self {α : Type} (s : Store α) (k : String) (v : α) :
    (s.set k v).lookup k = some v := by
  induction s with
  | nil => simp [Store.set, Store.lookup]
  | cons hd tl ih =>
      obtain ⟨k', v'⟩ := hd
      by_cases h : k' = k <;> simp [Store.set, Store.lookup, h, ih]

theorem Store.lookup_set_ne {α : Type} (s : Store α) (k k' : String) (v : α)
    (h : k ≠ k') : (s.set k v).lookup k' = s.lookup k' := by
  induction s with
  | nil => simp [Store.set, Store.lookup, h]
  | cons hd tl ih =>
      obtain ⟨k₀, v₀⟩ := hd
      by_cases h₀ : k₀ = k
      · subst h₀; simp [Store.set, Store.lookup, h]
      · simp [Store.set, Store.lookup, h₀, ih]

theorem Store.lookup_erase_self {α : Type} (s : Store α) (k : String) :
    (s.erase k).lookup k = none := by
  induction s with
  | nil => simp [Store.erase, Store.lookup]
  | cons hd tl ih =>
      obtain ⟨k', v'⟩ := hd
      by_cases h : k' = k <;> simp [Store.erase, Store.lookup, h, ih]

theorem Store.lookup_erase_ne {α : Type} (s : Store α) (k k' : String)
    (h : k ≠ k') : (s.erase k).lookup k' = s.lookup k' := by
  induction s with
  | nil => simp [Store.erase, Store.lookup]
  | cons hd tl ih =>
      obtain ⟨k₀, v₀⟩ := hd
      by_cases h₀ : k₀ = k
      · subst h₀; simp [Store.erase, Store.lookup, h, ih]
      · simp [Store.erase, Store.lookup, h₀, ih]

/-! ## Branch lemmas for the rate limiter -/

theorem check_rate_limit_fresh (now : Int) (E : String) (rs : Store RateRecord)
    (hr : rs.lookup E = none) :
    check_rate_limit now E rs =
      (true, rs.set E { last_request := now, count := 1 }) := by
  simp [check_rate_limit, hr]

theorem check_rate_limit_reset (now : Int) (E : String) (rs : Store RateRecord)
    (r : RateRecord) (hr : rs.lookup E = some r)
    (h : now - r.last_request > 900) :
    check_rate_limit now E rs =
      (true, rs.set E { last_request := now, count := 1 }) := by
  simp [check_rate_limit, hr, h]

theorem check_rate_limit_increment (now : Int) (E : String)
    (rs : Store RateRecord) (r : RateRecord) (hr : rs.lookup E = some r)
    (h : ¬ now - r.last_request > 900) (hc : r.count < 3) :
    check_rate_limit now E rs =
      (true, rs.set E { last_request := now, count := r.count + 1 }) := by
  have hc' : ¬ r.count ≥ 3 := by omega
  simp [check_rate_limit, hr, h, hc']

theorem check_rate_limit_deny (now : Int) (E : String)
    (rs : Store RateRecord) (r : RateRecord) (hr : rs.lookup E = some r)
    (h : ¬ now - r.last_request > 900) (hc : r.count ≥ 3) :
    check_rate_limit now E rs = (false, rs) := by
  simp [check_rate_limit, hr, h, hc]

/-! ## Branch lemmas for `/verify-otp` (`main.py`) -/

theorem MainPy.verify_otp_no_challenge (secret : String) (now : Int)
    (E otp : String) (s : ServerState)
    (hr : s.otp_store.lookup E = none) :
    MainPy.verify_otp secret now E otp s =
      (Except.error ⟨400, "No OTP sent for this email"⟩, s) := by
  simp [MainPy.verify_otp, hr]

theorem MainPy.verify_otp_expired (secret : String) (now : Int)
    (E otp : String) (s : ServerState) (r : OtpRecord)
    (hr : s.otp_store.lookup E = some r) (hexp : now > r.expires) :
    MainPy.verify_otp secret now E otp s =
      (Except.error ⟨400, "OTP has expired"⟩,
       { s with otp_store := s.otp_store.erase E }) := by
  simp [MainPy.verify_otp, hr, hexp]

theorem MainPy.verify_otp_exhausted (secret : String) (now : Int)
    (E otp : String) (s : ServerState) (r : OtpRecord)
    (hr : s.otp_store.lookup E = some r) (hexp : ¬ now > r.expires)
    (hatt : r.attempts ≥ 3) :
    MainPy.verify_otp secret now E otp s =
      (Except.error ⟨400, "Too many failed attempts. Please request a new OTP."⟩,
       { s with otp_store := s.otp_store.erase E }) := by
  simp [MainPy.verify_otp, hr, hexp, hatt]

theorem MainPy.verify_otp_mismatch (secret : String) (now : Int)
    (E w : String) (s : ServerState) (r : OtpRecord)
    (hr : s.otp_store.lookup E = some r) (hexp : ¬ now > r.expires)
    (hatt : r.attempts < 3) (hw : w ≠ r.code) :
    MainPy.verify_otp secret now E w s =
      (Except.error ⟨400, "Invalid OTP"⟩,
       { s with otp_store := s.otp_store.set E { r with attempts := r.attempts + 1 } }) := by
  have hatt' : ¬ r.attempts ≥ 3 := by omega
  simp [MainPy.verify_otp, hr, hexp, hatt', hw]

theorem MainPy.verify_otp_correct (secret : String) (now : Int)
    (E : String) (s : ServerState) (r : OtpRecord)
    (hr : s.otp_store.lookup E = some r) (hexp : ¬ now > r.expires)
    (hatt : r.attempts < 3) :
    MainPy.verify_otp secret now E r.code s =
      (Except.ok [("success", JVal.b true),
                  ("message", JVal.s "OTP verified successfully"),
                  ("access_token", JVal.tok
                    (create_access_token secret now (some E) r.user_name r.company)),
                  ("token_type", JVal.s "bearer"),
                  ("expires_in", JVal.i accessTokenExpireSeconds),
                  ("user_data", JVal.obj
                    [("email", JLeaf.s E),
                     ("name", JLeaf.opt r.user_name),
                     ("company", JLeaf.opt r.company)])],
       { s with
           otp_store := (s.otp_store.set E { r with attempts := r.attempts + 1 }).erase E,
           user_sessions := s.user_sessions.set E
             { token := create_access_token secret now (some E) r.user_name r.company,
               expires := now + accessTokenExpireSeconds } }) := by
  have hatt' : ¬ r.attempts ≥ 3 := by omega
  simp [MainPy.verify_otp, hr, hexp, hatt']

/-! ## Branch lemmas for `/verify-otp` (`newMain.py`) and `/send-otp` -/

theorem NewMainPy.verify_otp_correct_new (secret : String) (now : Int)
    (E : String) (s : ServerState) (r : OtpRecord)
    (hr : s.otp_store.lookup E = some r) (hexp : ¬ now > r.expires)
    (hatt : r.attempts < 3) :
    NewMainPy.verify_otp secret now E r.code s =
      (Except.ok [("success", JVal.b true),
                  ("message", JVal.s "OTP verified"),
                  ("access_token", JVal.tok
                    (create_access_token secret now (some E) r.user_name r.company)),
                  ("token_type", JVal.s "bearer"),
                  ("expires_in", JVal.i accessTokenExpireSeconds)],
       { s with
           otp_store := (s.otp_store.set E { r with attempts := r.attempts + 1 }).erase E,
           user_sessions := s.user_sessions.set E
             { token := create_access_token secret now (some E) r.user_name r.company,
               expires := now + accessTokenExpireSeconds } }) := by
  have hatt' : ¬ r.attempts ≥ 3 := by omega
  simp [NewMainPy.verify_otp, hr, hexp, hatt']

theorem MainPy.send_otp_failed (now : Int) (E : String)
    (name company : Option String) (otp : String) (s : ServerState)
    (hgrant : (check_rate_limit now E s.rate_limit_store).1 = true) :
    MainPy.send_otp false now E name company otp s =
      (Except.error ⟨500, "Failed to send email"⟩,
       { s with
           rate_limit_store := (check_rate_limit now E s.rate_limit_store).2,
           otp_store := (s.otp_store.set E
             { code := otp, expires := now + 300, attempts := 0,
               user_name := name, company := company }).erase E }) := by
  simp [MainPy.send_otp, hgrant]

theorem NewMainPy.send_otp_failed_new (now : Int) (E : String)
    (name company : Option String) (otp : String) (s : ServerState)
    (hgrant : (check_rate_limit now E s.rate_limit_store).1 = true) :
    NewMainPy.send_otp false now E name company otp s =
      (Except.error ⟨500, "Failed to send email"⟩,
       { s with
           rate_limit_store := (check_rate_limit now E s.rate_limit_store).2,
           otp_store := (s.otp_store.set E
             { code := otp, expires := now + 300, attempts := 0,
               user_name := name, company := company }).erase E }) := by
  simp [NewMainPy.send_otp, hgrant]

theorem MainPy.send_otp_ok (now : Int) (E : String)
    (name company : Option String) (otp : String) (s : ServerState)
    (hgrant : (check_rate_limit now E s.rate_limit_store).1 = true) :
    MainPy.send_otp true now E name company otp s =
      (Except.ok [("success", JVal.b true),
                  ("message", JVal.s "OTP sent successfully"),
                  ("expires_in", JVal.i 300)],
       { s with
           rate_limit_store := (check_rate_limit now E s.rate_limit_store).2,
           otp_store := s.otp_store.set E
             { code := otp, expires := now + 300, attempts := 0,
               user_name := name, company := company } }) := by
  simp [MainPy.send_otp, hgrant]

/-! ## Branch lemmas for `/verify-token` -/

theorem MainPy.verify_token_endpoint_ok (secret : String) (now : Int)
    (tok : Token) (E : String) (sess : Session) (s : ServerState)
    (hkey : tok.key = secret) (hexp : ¬ tok.exp < now) (hsub : tok.sub = some E)
    (hE : E ≠ "") (hsess : s.user_sessions.lookup E = some sess)
    (hlive : ¬ now > sess.expires) :
    MainPy.verify_token_endpoint secret now tok s =
      (Except.ok [("success", JVal.b true),
                  ("message", JVal.s "Token is valid"),
                  ("user_data", JVal.obj [("email", JLeaf.s E)])], s) := by
  simp [MainPy.verify_token_endpoint, verify_token, hkey, hexp, hsub, hE, hsess, hlive]

/-! ## Claims -/

/-- C1: a correctly signed, unexpired token whose subject is `E` is
rejected with 401 by `/verify-token` (both variants) whenever the
session store holds no live session for `E` — either no entry at all,
or an entry whose expiry has passed. A structurally valid token alone
is never treated as valid. -/
theorem c1_valid_token_without_live_session_rejected
    (secret : String) (now : Int) (tok : Token) (E : String) (s : ServerState)
    (hkey : tok.key = secret) (hexp : ¬ tok.exp < now) (hsub : tok.sub = some E)
    (hE : E ≠ "")
    (hnosess : s.user_sessions.lookup E = none ∨
      ∃ sess, s.user_sessions.lookup E = some sess ∧ now > sess.expires) :
    (∃ d, (MainPy.verify_token_endpoint secret now tok s).1 =
        Except.error { status := 401, detail := d }) ∧
    (∃ d, (NewMainPy.verify_token_endpoint secret now tok s).1 =
        Except.error { status := 401, detail := d }) := by
  constructor
  · rcases hnosess with h | ⟨sess, hs, hdead⟩
    · exact ⟨"Session not found",
        by simp [MainPy.verify_token_endpoint, verify_token, hkey, hexp, hsub, hE, h]⟩
    · exact ⟨"Session expired",
        by simp [MainPy.verify_token_endpoint, verify_token, hkey, hexp, hsub, hE, hs, hdead]⟩
  · rcases hnosess with h | ⟨sess, hs, hdead⟩
    · exact ⟨"Invalid or expired token",
        by simp [NewMainPy.verify_token_endpoint, verify_token, hkey, hexp, hsub, hE, h]⟩
    · exact ⟨"Session expired",
        by simp [NewMainPy.verify_token_endpoint, verify_token, hkey, hexp, hsub, hE, hs, hdead]⟩

/-- Witness for C1 at a concrete input: a well-signed token for
`a@x.com`, valid until 200, presented at time 100 against an empty
session store. -/
theorem c1_witness :
    (∃ d, (MainPy.verify_token_endpoint "k" 100
        { sub := some "a@x.com", name := none, company := none, exp := 200, key := "k" }
        { otp_store := [], rate_limit_store := [], user_sessions := [] }).1 =
        Except.error { status := 401, detail := d }) ∧
    (∃ d, (NewMainPy.verify_token_endpoint "k" 100
        { sub := some "a@x.com", name := none, company := none, exp := 200, key := "k" }
        { otp_store := [], rate_limit_store := [], user_sessions := [] }).1 =
        Except.error { status := 401, detail := d }) :=
  c1_valid_token_without_live_session_rejected "k" 100
    { sub := some "a@x.com", name := none, company := none, exp := 200, key := "k" }
    "a@x.com" { otp_store := [], rate_limit_store := [], user_sessions := [] }
    rfl (by decide) rfl (by decide) (Or.inl rfl)

/-- C7: when `check_rate_limit` denies (window not yet rolled over and
count at the limit) the rate store is returned completely unchanged,
and a retry after the window rolls over (more than 900 s after the
stored window reference) is admitted with a reset window. -/
theorem c7_denial_leaves_window_unchanged
    (now : Int) (E : String) (rs : Store RateRecord) (r : RateRecord)
    (hr : rs.lookup E = some r) (helapsed : ¬ now - r.last_request > 900)
    (hcount : r.count ≥ 3) :
    check_rate_limit now E rs = (false, rs) ∧
    (∀ t, t - r.last_request > 900 →
      check_rate_limit t E rs = (true, rs.set E { last_request := t, count := 1 })) :=
  ⟨check_rate_limit_deny now E rs r hr helapsed hcount,
   fun t ht => check_rate_limit_reset t E rs r hr ht⟩

/-- Witness for C7: a full window for `a@x.com` started at 0; a request
at 100 is denied without touching the store, one at 1000 resets it. -/
theorem c7_witness :
    check_rate_limit 100 "a@x.com" [("a@x.com", { last_request := 0, count := 3 })]
      = (false, [("a@x.com", { last_request := 0, count := 3 })]) ∧
    check_rate_limit 1000 "a@x.com" [("a@x.com", { last_request := 0, count := 3 })]
      = (true, Store.set [("a@x.com", { last_request := 0, count := 3 })] "a@x.com"
          { last_request := 1000, count := 1 }) := by
  have h := c7_denial_leaves_window_unchanged 100 "a@x.com"
    [("a@x.com", { last_request := 0, count := 3 })]
    { last_request := 0, count := 3 } rfl (by decide) (by decide)
  exact ⟨h.1, h.2 1000 (by decide)⟩

/-- C8: a successful `/verify-otp` deletes the challenge, so the exact
same correct code submitted again immediately afterwards fails with
the no-challenge error: success is one-shot. -/
theorem c8_success_is_one_shot
    (secret E : String) (now t2 : Int) (s : ServerState) (r : OtpRecord)
    (hr : s.otp_store.lookup E = some r) (hexp : ¬ now > r.expires)
    (hatt : r.attempts < 3) :
    (∃ b, (MainPy.verify_otp secret now E r.code s).1 = Except.ok b) ∧
    ((MainPy.verify_otp secret now E r.code s).2).otp_store.lookup E = none ∧
    (MainPy.verify_otp secret t2 E r.code
        ((MainPy.verify_otp secret now E r.code s).2)).1
      = Except.error ⟨400, "No OTP sent for this email"⟩ := by
  have h1 := MainPy.verify_otp_correct secret now E s r hr hexp hatt
  have h2 : ((MainPy.verify_otp secret now E r.code s).2).otp_store.lookup E = none := by
    rw [h1]
    exact Store.lookup_erase_self _ _
  refine ⟨⟨_, by rw [h1]⟩, h2, ?_⟩
  rw [MainPy.verify_otp_no_challenge secret t2 E r.code _ h2]

/-- Witness for C8: code 123456 verified at time 10 succeeds once, the
identical resubmission at time 11 gets the no-challenge error. -/
theorem c8_witness :
    (∃ b, (MainPy.verify_otp "k" 10 "a@x.com"
        (OtpRecord.code { code := "123456", expires := 300, attempts := 0,
                          user_name := none, company := none })
        { otp_store := [("a@x.com",
            { code := "123456", expires := 300, attempts := 0,
              user_name := none, company := none })],
          rate_limit_store := [], user_sessions := [] }).1 = Except.ok b) ∧
    ((MainPy.verify_otp "k" 10 "a@x.com"
        (OtpRecord.code { code := "123456", expires := 300, attempts := 0,
                          user_name := none, company := none })
        { otp_store := [("a@x.com",
            { code := "123456", expires := 300, attempts := 0,
              user_name := none, company := none })],
          rate_limit_store := [], user_sessions := [] }).2).otp_store.lookup "a@x.com" = none ∧
    (MainPy.verify_otp "k" 11 "a@x.com"
        (OtpRecord.code { code := "123456", expires := 300, attempts := 0,
                          user_name := none, company := none })
        ((MainPy.verify_otp "k" 10 "a@x.com"
            (OtpRecord.code { code := "123456", expires := 300, attempts := 0,
                              user_name := none, company := none })
            { otp_store := [("a@x.com",
                { code := "123456", expires := 300, attempts := 0,
                  user_name := none, company := none })],
              rate_limit_store := [], user_sessions := [] }).2)).1
      = Except.error ⟨400, "No OTP sent for this email"⟩ :=
  c8_success_is_one_shot "k" "a@x.com" 10 11
    { otp_store := [("a@x.com",
        { code := "123456", expires := 300, attempts := 0,
          user_name := none, company := none })],
      rate_limit_store := [], user_sessions := [] }
    { code := "123456", expires := 300, attempts := 0,
      user_name := none, company := none }
    rfl (by decide) (by decide)

/-- C2: attempts are charged before the code comparison. Starting from
a fresh challenge (0 attempts, within its TTL), three wrong submissions
each fail with the mismatch error; a 4th submission with the correct
code then fails with the attempts-exhausted error, while a correct 3rd
submission after only two wrong ones still succeeds. -/
theorem c2_attempt_charged_before_comparison
    (secret E w : String) (t1 t2 t3 t4 : Int) (s : ServerState) (r : OtpRecord)
    (hr : s.otp_store.lookup E = some r) (ha : r.attempts = 0) (hw : w ≠ r.code)
    (ht1 : ¬ t1 > r.expires) (ht2 : ¬ t2 > r.expires)
    (ht3 : ¬ t3 > r.expires) (ht4 : ¬ t4 > r.expires) :
    (MainPy.verify_otp secret t1 E w s).1 = Except.error ⟨400, "Invalid OTP"⟩ ∧
    (MainPy.verify_otp secret t2 E w
        (MainPy.verify_otp secret t1 E w s).2).1
      = Except.error ⟨400, "Invalid OTP"⟩ ∧
    (MainPy.verify_otp secret t3 E w
        (MainPy.verify_otp secret t2 E w
          (MainPy.verify_otp secret t1 E w s).2).2).1
      = Except.error ⟨400, "Invalid OTP"⟩ ∧
    (MainPy.verify_otp secret t4 E r.code
        (MainPy.verify_otp secret t3 E w
          (MainPy.verify_otp secret t2 E w
            (MainPy.verify_otp secret t1 E w s).2).2).2).1
      = Except.error ⟨400, "Too many failed attempts. Please request a new OTP."⟩ ∧
    (∃ b, (MainPy.verify_otp secret t3 E r.code
        (MainPy.verify_otp secret t2 E w
          (MainPy.verify_otp secret t1 E w s).2).2).1 = Except.ok b) := by
  obtain ⟨code, expi, att, un, co⟩ := r
  dsimp only at ha hw ht1 ht2 ht3 ht4 ⊢
  subst ha
  have step : ∀ (t : Int) (st : ServerState) (k : Nat), k < 3 → ¬ t > expi →
      st.otp_store.lookup E = some ⟨code, expi, k, un, co⟩ →
      MainPy.verify_otp secret t E w st =
        (Except.error ⟨400, "Invalid OTP"⟩,
         { st with otp_store := st.otp_store.set E ⟨code, expi, k + 1, un, co⟩ }) :=
    fun t st k hk ht hl =>
      MainPy.verify_otp_mismatch secret t E w st ⟨code, expi, k, un, co⟩ hl ht hk hw
  have m1 := step t1 s 0 (by omega) ht1 hr
  have l1 : ((MainPy.verify_otp secret t1 E w s).2).otp_store.lookup E
      = some ⟨code, expi, 1, un, co⟩ := by
    rw [m1]
    exact Store.lookup_set_self _ _ _
  have m2 := step t2 _ 1 (by omega) ht2 l1
  have l2 : ((MainPy.verify_otp secret t2 E w
      (MainPy.verify_otp secret t1 E w s).2).2).otp_store.lookup E
      = some ⟨code, expi, 2, un, co⟩ := by
    rw [m2]
    exact Store.lookup_set_self _ _ _
  have m3 := step t3 _ 2 (by omega) ht3 l2
  have l3 : ((MainPy.verify_otp secret t3 E w
      (MainPy.verify_otp secret t2 E w
        (MainPy.verify_otp secret t1 E w s).2).2).2).otp_store.lookup E
      = some ⟨code, expi, 3, un, co⟩ := by
    rw [m3]
    exact Store.lookup_set_self _ _ _
  refine ⟨by rw [m1], by rw [m2], by rw [m3], ?_, ?_⟩
  · rw [MainPy.verify_otp_exhausted secret t4 E code _ ⟨code, expi, 3, un, co⟩ l3 ht4
      (show (3 : Nat) ≥ 3 by omega)]
  · exact ⟨_, by rw [MainPy.verify_otp_correct secret t3 E _ ⟨code, expi, 2, un, co⟩ l2 ht3
      (show (2 : Nat) < 3 by omega)]⟩

/-- Witness for C2: challenge code 123456, wrong code 000000, four
submissions at times 1–4, all within the TTL. -/
theorem c2_witness :
    (MainPy.verify_otp "k" 1 "a@x.com" "000000"
        { otp_store := [("a@x.com",
            { code := "123456", expires := 300, attempts := 0,
              user_name := none, company := none })],
          rate_limit_store := [], user_sessions := [] }).1
      = Except.error ⟨400, "Invalid OTP"⟩ ∧
    (MainPy.verify_otp "k" 2 "a@x.com" "000000"
        (MainPy.verify_otp "k" 1 "a@x.com" "000000"
          { otp_store := [("a@x.com",
              { code := "123456", expires := 300, attempts := 0,
                user_name := none, company := none })],
            rate_limit_store := [], user_sessions := [] }).2).1
      = Except.error ⟨400, "Invalid OTP"⟩ ∧
    (MainPy.verify_otp "k" 3 "a@x.com" "000000"
        (MainPy.verify_otp "k" 2 "a@x.com" "000000"
          (MainPy.verify_otp "k" 1 "a@x.com" "000000"
            { otp_store := [("a@x.com",
                { code := "123456", expires := 300, attempts := 0,
                  user_name := none, company := none })],
              rate_limit_store := [], user_sessions := [] }).2).2).1
      = Except.error ⟨400, "Invalid OTP"⟩ ∧
    (MainPy.verify_otp "k" 4 "a@x.com"
        (OtpRecord.code { code := "123456", expires := 300, attempts := 0,
                          user_name := none, company := none })
        (MainPy.verify_otp "k" 3 "a@x.com" "000000"
          (MainPy.verify_otp "k" 2 "a@x.com" "000000"
            (MainPy.verify_otp "k" 1 "a@x.com" "000000"
              { otp_store := [("a@x.com",
                  { code := "123456", expires := 300, attempts := 0,
                    user_name := none, company := none })],
                rate_limit_store := [], user_sessions := [] }).2).2).2).1
      = Except.error ⟨400, "Too many failed attempts. Please request a new OTP."⟩ ∧
    (∃ b, (MainPy.verify_otp "k" 3 "a@x.com"
        (OtpRecord.code { code := "123456", expires := 300, attempts := 0,
                          user_name := none, company := none })
        (MainPy.verify_otp "k" 2 "a@x.com" "000000"
          (MainPy.verify_otp "k" 1 "a@x.com" "000000"
            { otp_store := [("a@x.com",
                { code := "123456", expires := 300, attempts := 0,
                  user_name := none, company := none })],
              rate_limit_store := [], user_sessions := [] }).2).2).1 = Except.ok b) :=
  c2_attempt_charged_before_comparison "k" "a@x.com" "000000" 1 2 3 4
    { otp_store := [("a@x.com",
        { code := "123456", expires := 300, attempts := 0,
          user_name := none, company := none })],
      rate_limit_store := [], user_sessions := [] }
    { code := "123456", expires := 300, attempts := 0,
      user_name := none, company := none }
    rfl rfl (by decide) (by decide) (by decide) (by decide) (by decide)

theorem MainPy.refresh_token_ok (secret : String) (tr : Int) (E : String)
    (s : ServerState) (sess : Session)
    (hsess : s.user_sessions.lookup E = some sess) (hlive : ¬ tr > sess.expires) :
    MainPy.refresh_token secret tr E s =
      (Except.ok [("success", JVal.b true),
                  ("message", JVal.s "Token refreshed successfully"),
                  ("access_token", JVal.tok (create_access_token secret tr (some E) none none)),
                  ("token_type", JVal.s "bearer"),
                  ("expires_in", JVal.i accessTokenExpireSeconds)],
       { s with user_sessions :=
           (s.user_sessions.set E
             { token := create_access_token secret tr (some E) none none,
               expires := tr + accessTokenExpireSeconds }) }) := by
  simp [MainPy.refresh_token, hsess, hlive]

/-- C5: `/verify-token` never compares the presented token with the
session's stored token string. First conjunct: with a live session for
`E` holding an arbitrary `sess` (in particular an arbitrary stored
token), any correctly signed unexpired token with subject `E` is
accepted. Second conjunct: after a later `/refresh-token` (which
overwrites the stored token), the same arbitrary old token is still
accepted while the refreshed session is alive. -/
theorem c5_token_never_compared_to_session
    (secret E : String) (t tr tv : Int) (tok : Token) (sess : Session)
    (s : ServerState) (hE : E ≠ "")
    (hkey : tok.key = secret) (hsub : tok.sub = some E)
    (hsess : s.user_sessions.lookup E = some sess)
    (hexp1 : ¬ tok.exp < t) (hlive1 : ¬ t > sess.expires)
    (hlive0 : ¬ tr > sess.expires)
    (hexp2 : ¬ tok.exp < tv) (hlive2 : ¬ tv > tr + accessTokenExpireSeconds) :
    (MainPy.verify_token_endpoint secret t tok s).1 =
      Except.ok [("success", JVal.b true),
                 ("message", JVal.s "Token is valid"),
                 ("user_data", JVal.obj [("email", JLeaf.s E)])] ∧
    (MainPy.verify_token_endpoint secret tv tok
        (MainPy.refresh_token secret tr E s).2).1 =
      Except.ok [("success", JVal.b true),
                 ("message", JVal.s "Token is valid"),
                 ("user_data", JVal.obj [("email", JLeaf.s E)])] := by
  constructor
  · rw [MainPy.verify_token_endpoint_ok secret t tok E sess s hkey hexp1 hsub hE hsess hlive1]
  · have hreset := MainPy.refresh_token_ok secret tr E s sess hsess hlive0
    have hsess' : ((MainPy.refresh_token secret tr E s).2).user_sessions.lookup E
        = some { token := create_access_token secret tr (some E) none none,
                 expires := tr + accessTokenExpireSeconds } := by
      rw [hreset]
      exact Store.lookup_set_self _ _ _
    rw [MainPy.verify_token_endpoint_ok secret tv tok E _ _ hkey hexp2 hsub hE hsess'
      hlive2]

/-- Witness for C5: the stored session token differs from the presented
token (different name claim and expiry), yet both checks accept; the
refresh at time 10 overwrites the stored token and the old presented
token is still accepted at time 20. -/
theorem c5_witness :
    (MainPy.verify_token_endpoint "k" 5
        { sub := some "a@x.com", name := none, company := none, exp := 2000, key := "k" }
        { otp_store := [], rate_limit_store := [],
          user_sessions := [("a@x.com",
            { token := { sub := some "a@x.com", name := some "Ada", company := none,
                         exp := 900, key := "k" },
              expires := 1000 })] }).1 =
      Except.ok [("success", JVal.b true),
                 ("message", JVal.s "Token is valid"),
                 ("user_data", JVal.obj [("email", JLeaf.s "a@x.com")])] ∧
    (MainPy.verify_token_endpoint "k" 20
        { sub := some "a@x.com", name := none, company := none, exp := 2000, key := "k" }
        (MainPy.refresh_token "k" 10 "a@x.com"
          { otp_store := [], rate_limit_store := [],
            user_sessions := [("a@x.com",
              { token := { sub := some "a@x.com", name := some "Ada", company := none,
                           exp := 900, key := "k" },
                expires := 1000 })] }).2).1 =
      Except.ok [("success", JVal.b true),
                 ("message", JVal.s "Token is valid"),
                 ("user_data", JVal.obj [("email", JLeaf.s "a@x.com")])] :=
  c5_token_never_compared_to_session "k" "a@x.com" 5 10 20
    { sub := some "a@x.com", name := none, company := none, exp := 2000, key := "k" }
    { token := { sub := some "a@x.com", name := some "Ada", company := none,
                 exp := 900, key := "k" },
      expires := 1000 }
    { otp_store := [], rate_limit_store := [],
      user_sessions := [("a@x.com",
        { token := { sub := some "a@x.com", name := some "Ada", company := none,
                     exp := 900, key := "k" },
          expires := 1000 })] }
    (by decide) rfl rfl rfl (by decide) (by decide) (by decide) (by decide) (by decide)

/-- C6: an expired challenge fails with the expired error regardless of
the supplied code (even the stored one) and of remaining attempts, is
deleted from the ledger, and a subsequent admitted `/send-otp` for the
same identity succeeds and installs a fresh challenge. -/
theorem c6_expired_challenge_destroyed
    (secret E code otp2 : String) (now t2 : Int) (name company : Option String)
    (s : ServerState) (r : OtpRecord)
    (hr : s.otp_store.lookup E = some r) (hexp : now > r.expires)
    (hgrant : (check_rate_limit t2 E
        ((MainPy.verify_otp secret now E code s).2).rate_limit_store).1 = true) :
    (MainPy.verify_otp secret now E code s).1
      = Except.error ⟨400, "OTP has expired"⟩ ∧
    ((MainPy.verify_otp secret now E code s).2).otp_store.lookup E = none ∧
    (MainPy.send_otp true t2 E name company otp2
        ((MainPy.verify_otp secret now E code s).2)).1
      = Except.ok [("success", JVal.b true),
                   ("message", JVal.s "OTP sent successfully"),
                   ("expires_in", JVal.i 300)] ∧
    ((MainPy.send_otp true t2 E name company otp2
        ((MainPy.verify_otp secret now E code s).2)).2).otp_store.lookup E
      = some { code := otp2, expires := t2 + 300, attempts := 0,
               user_name := name, company := company } := by
  have m := MainPy.verify_otp_expired secret now E code s r hr hexp
  have l : ((MainPy.verify_otp secret now E code s).2).otp_store.lookup E = none := by
    rw [m]
    exact Store.lookup_erase_self _ _
  have so := MainPy.send_otp_ok t2 E name company otp2 _ hgrant
  refine ⟨by rw [m], l, by rw [so], ?_⟩
  rw [so]
  exact Store.lookup_set_self _ _ _

/-- Witness for C6: challenge expired at 300, checked at 400 with the
correct code and zero attempts used; resend at 401 succeeds. -/
theorem c6_witness :
    (MainPy.verify_otp "k" 400 "a@x.com" "123456"
        { otp_store := [("a@x.com",
            { code := "123456", expires := 300, attempts := 0,
              user_name := none, company := none })],
          rate_limit_store := [], user_sessions := [] }).1
      = Except.error ⟨400, "OTP has expired"⟩ ∧
    ((MainPy.verify_otp "k" 400 "a@x.com" "123456"
        { otp_store := [("a@x.com",
            { code := "123456", expires := 300, attempts := 0,
              user_name := none, company := none })],
          rate_limit_store := [], user_sessions := [] }).2).otp_store.lookup "a@x.com"
      = none ∧
    (MainPy.send_otp true 401 "a@x.com" none none "777777"
        ((MainPy.verify_otp "k" 400 "a@x.com" "123456"
          { otp_store := [("a@x.com",
              { code := "123456", expires := 300, attempts := 0,
                user_name := none, company := none })],
            rate_limit_store := [], user_sessions := [] }).2)).1
      = Except.ok [("success", JVal.b true),
                   ("message", JVal.s "OTP sent successfully"),
                   ("expires_in", JVal.i 300)] ∧
    ((MainPy.send_otp true 401 "a@x.com" none none "777777"
        ((MainPy.verify_otp "k" 400 "a@x.com" "123456"
          { otp_store := [("a@x.com",
              { code := "123456", expires := 300, attempts := 0,
                user_name := none, company := none })],
            rate_limit_store := [], user_sessions := [] }).2)).2).otp_store.lookup "a@x.com"
      = some { code := "777777", expires := 401 + 300, attempts := 0,
               user_name := none, company := none } :=
  c6_expired_challenge_destroyed "k" "a@x.com" "123456" "777777" 400 401 none none
    { otp_store := [("a@x.com",
        { code := "123456", expires := 300, attempts := 0,
          user_name := none, company := none })],
      rate_limit_store := [], user_sessions := [] }
    { code := "123456", expires := 300, attempts := 0,
      user_name := none, company := none }
    rfl (by decide) (by decide)

/-- C3 counterexample: `a@x.com` already has a pending challenge
(`c3PriorRecord`) when an admitted `/send-otp` is made whose external
send fails. The caller does get the 500, and no challenge remains —
but the ledger entry is NOT left "as it was before the request": the
pre-existing challenge is gone too. -/
theorem c3_counterexample :
    c3State.otp_store.lookup "a@x.com" = some c3PriorRecord ∧
    (MainPy.send_otp false 500 "a@x.com" none none "222222" c3State).1
      = Except.error ⟨500, "Failed to send email"⟩ ∧
    ((MainPy.send_otp false 500 "a@x.com" none none "222222" c3State).2).otp_store.lookup "a@x.com"
      = none ∧
    ((MainPy.send_otp false 500 "a@x.com" none none "222222" c3State).2).otp_store.lookup "a@x.com"
      ≠ c3State.otp_store.lookup "a@x.com" :=
  ⟨rfl, rfl, rfl, by decide⟩

/-- C3 (amended): an admitted `/send-otp` whose external send fails
returns the 500 send-failure error and leaves no OTP challenge for the
identity in the ledger (the freshly written record is removed, and any
pre-existing challenge is removed with it), in both variants. -/
theorem c3_send_failure_leaves_no_challenge
    (now : Int) (E : String) (name company : Option String) (otp : String)
    (s : ServerState)
    (hgrant : (check_rate_limit now E s.rate_limit_store).1 = true) :
    (MainPy.send_otp false now E name company otp s).1
      = Except.error ⟨500, "Failed to send email"⟩ ∧
    ((MainPy.send_otp false now E name company otp s).2).otp_store.lookup E = none ∧
    (NewMainPy.send_otp false now E name company otp s).1
      = Except.error ⟨500, "Failed to send email"⟩ ∧
    ((NewMainPy.send_otp false now E name company otp s).2).otp_store.lookup E = none := by
  have hm := MainPy.send_otp_failed now E name company otp s hgrant
  have hn := NewMainPy.send_otp_failed_new now E name company otp s hgrant
  refine ⟨by rw [hm], ?_, by rw [hn], ?_⟩
  · rw [hm]
    exact Store.lookup_erase_self _ _
  · rw [hn]
    exact Store.lookup_erase_self _ _

/-- Witness for the amended C3 at a concrete admitted request whose
send fails. -/
theorem c3_amended_witness :
    (MainPy.send_otp false 500 "a@x.com" none none "222222" c3State).1
      = Except.error ⟨500, "Failed to send email"⟩ ∧
    ((MainPy.send_otp false 500 "a@x.com" none none "222222" c3State).2).otp_store.lookup "a@x.com"
      = none ∧
    (NewMainPy.send_otp false 500 "a@x.com" none none "222222" c3State).1
      = Except.error ⟨500, "Failed to send email"⟩ ∧
    ((NewMainPy.send_otp false 500 "a@x.com" none none "222222" c3State).2).otp_store.lookup "a@x.com"
      = none :=
  c3_send_failure_leaves_no_challenge 500 "a@x.com" none none "222222" c3State rfl

/-- C4 counterexample: requests at times 0, 800 and 900 are all
admitted. After the second admitted request the stored window reference
is 800, not the first request's 0 — so `windowStart` is NOT the
timestamp of the first request of the window. A 4th request at 950,
which is more than 900 s after the window's 1st request (at 0), is
nevertheless denied (it is only 50 s after the last admitted request),
refuting "a request made more than 900 seconds after the 1st request
of the window is admitted". -/
theorem c4_counterexample :
    (check_rate_limit 0 "a@x.com" []).1 = true ∧
    (check_rate_limit 800 "a@x.com" c4Window1).1 = true ∧
    (check_rate_limit 900 "a@x.com" c4Window2).1 = true ∧
    c4Window2.lookup "a@x.com" = some { last_request := 800, count := 2 } ∧
    (950 : Int) - 0 > 900 ∧
    check_rate_limit 950 "a@x.com" c4Window3 = (false, c4Window3) := by
  decide

/-- C4 (amended): the stored window reference is the timestamp of the
MOST RECENT admitted request, not the first. A 4th request within
900 s of the 1st is still denied (it is then necessarily within 900 s
of the last admitted request), with the window unchanged; and a
request more than 900 s after the LAST admitted request is admitted
and resets the window to count 1 with a new start. -/
theorem c4_window_reference_is_last_admitted
    (E : String) (t1 t2 t3 t4 : Int) (rs : Store RateRecord)
    (h0 : rs.lookup E = none) (h12 : t1 ≤ t2) (h23 : t2 ≤ t3) (h34 : t3 ≤ t4)
    (hspan : t4 ≤ t1 + 900) :
    (check_rate_limit t1 E rs).1 = true ∧
    (check_rate_limit t2 E (check_rate_limit t1 E rs).2).1 = true ∧
    (check_rate_limit t3 E
        (check_rate_limit t2 E (check_rate_limit t1 E rs).2).2).1 = true ∧
    ((check_rate_limit t3 E
        (check_rate_limit t2 E (check_rate_limit t1 E rs).2).2).2).lookup E
      = some { last_request := t3, count := 3 } ∧
    check_rate_limit t4 E
        (check_rate_limit t3 E
          (check_rate_limit t2 E (check_rate_limit t1 E rs).2).2).2
      = (false, (check_rate_limit t3 E
          (check_rate_limit t2 E (check_rate_limit t1 E rs).2).2).2) ∧
    (∀ t5, t5 - t3 > 900 →
      check_rate_limit t5 E
          (check_rate_limit t3 E
            (check_rate_limit t2 E (check_rate_limit t1 E rs).2).2).2
        = (true, ((check_rate_limit t3 E
            (check_rate_limit t2 E (check_rate_limit t1 E rs).2).2).2).set E
            { last_request := t5, count := 1 })) := by
  have m1 := check_rate_limit_fresh t1 E rs h0
  have l1 : ((check_rate_limit t1 E rs).2).lookup E
      = some { last_request := t1, count := 1 } := by
    rw [m1]
    exact Store.lookup_set_self _ _ _
  have m2 := check_rate_limit_increment t2 E _ _ l1
    (show ¬ t2 - t1 > 900 by omega) (show (1 : Nat) < 3 by omega)
  have l2 : ((check_rate_limit t2 E (check_rate_limit t1 E rs).2).2).lookup E
      = some { last_request := t2, count := 2 } := by
    rw [m2]
    exact Store.lookup_set_self _ _ _
  have m3 := check_rate_limit_increment t3 E _ _ l2
    (show ¬ t3 - t2 > 900 by omega) (show (2 : Nat) < 3 by omega)
  have l3 : ((check_rate_limit t3 E
      (check_rate_limit t2 E (check_rate_limit t1 E rs).2).2).2).lookup E
      = some { last_request := t3, count := 3 } := by
    rw [m3]
    exact Store.lookup_set_self _ _ _
  refine ⟨by rw [m1], by rw [m2], by rw [m3], l3, ?_, ?_⟩
  · exact check_rate_limit_deny t4 E _ _ l3
      (show ¬ t4 - t3 > 900 by omega) (show (3 : Nat) ≥ 3 by omega)
  · intro t5 h5
    exact check_rate_limit_reset t5 E _ _ l3 (show t5 - t3 > 900 from h5)

/-- Witness for the amended C4: requests at 0, 1, 2 admitted, a 4th at
3 (within 900 s of the 1st) denied with the window untouched, a
request at 1000 (more than 900 s after the last admitted request)
admitted with a reset window. -/
theorem c4_amended_witness :
    check_rate_limit 3 "a@x.com"
        (check_rate_limit 2 "a@x.com"
          (check_rate_limit 1 "a@x.com" (check_rate_limit 0 "a@x.com" []).2).2).2
      = (false, (check_rate_limit 2 "a@x.com"
          (check_rate_limit 1 "a@x.com" (check_rate_limit 0 "a@x.com" []).2).2).2) ∧
    check_rate_limit 1000 "a@x.com"
        (check_rate_limit 2 "a@x.com"
          (check_rate_limit 1 "a@x.com" (check_rate_limit 0 "a@x.com" []).2).2).2
      = (true, ((check_rate_limit 2 "a@x.com"
          (check_rate_limit 1 "a@x.com" (check_rate_limit 0 "a@x.com" []).2).2).2).set
          "a@x.com" { last_request := 1000, count := 1 }) := by
  have h := c4_window_reference_is_last_admitted "a@x.com" 0 1 2 3 [] rfl
    (by omega) (by omega) (by omega) (by omega)
  exact ⟨h.2.2.2.2.1, h.2.2.2.2.2 1000 (by omega)⟩

/-- C9 counterexample: on the same successful `/verify-otp` exchange
(state `c9State`, correct code), `main.py`'s 200 body has a
`user_data` key but `newMain.py`'s 200 body has none — the two
variants do NOT return the same body shape. -/
theorem c9_counterexample :
    okWithKey (MainPy.verify_otp "k" 10 "a@x.com" "654321" c9State).1 "success" = true ∧
    okWithKey (MainPy.verify_otp "k" 10 "a@x.com" "654321" c9State).1 "user_data" = true ∧
    okWithKey (NewMainPy.verify_otp "k" 10 "a@x.com" "654321" c9State).1 "success" = true ∧
    okWithKey (NewMainPy.verify_otp "k" 10 "a@x.com" "654321" c9State).1 "user_data" = false := by
  decide

/-- C9 (amended): on every successful `/verify-otp`, both variants
return a 200 body with `success`, `access_token`, `token_type`
"bearer" and `expires_in` 1800; only `main.py` additionally returns
`user_data` with the identity's email, name and company — the
`newMain.py` body has no `user_data` key. -/
theorem c9_verify_otp_bodies_across_variants
    (secret E : String) (now : Int) (s : ServerState) (r : OtpRecord)
    (hr : s.otp_store.lookup E = some r) (hexp : ¬ now > r.expires)
    (hatt : r.attempts < 3) :
    (MainPy.verify_otp secret now E r.code s).1
      = Except.ok [("success", JVal.b true),
                   ("message", JVal.s "OTP verified successfully"),
                   ("access_token", JVal.tok
                     (create_access_token secret now (some E) r.user_name r.company)),
                   ("token_type", JVal.s "bearer"),
                   ("expires_in", JVal.i accessTokenExpireSeconds),
                   ("user_data", JVal.obj
                     [("email", JLeaf.s E),
                      ("name", JLeaf.opt r.user_name),
                      ("company", JLeaf.opt r.company)])] ∧
    (NewMainPy.verify_otp secret now E r.code s).1
      = Except.ok [("success", JVal.b true),
                   ("message", JVal.s "OTP verified"),
                   ("access_token", JVal.tok
                     (create_access_token secret now (some E) r.user_name r.company)),
                   ("token_type", JVal.s "bearer"),
                   ("expires_in", JVal.i accessTokenExpireSeconds)] :=
  ⟨by rw [MainPy.verify_otp_correct secret now E s r hr hexp hatt],
   by rw [NewMainPy.verify_otp_correct_new secret now E s r hr hexp hatt]⟩

/-- Witness for the amended C9 at the concrete state `c9State`. -/
theorem c9_amended_witness :
    (MainPy.verify_otp "k" 10 "a@x.com" (OtpRecord.code c9Record) c9State).1
      = Except.ok [("success", JVal.b true),
                   ("message", JVal.s "OTP verified successfully"),
                   ("access_token", JVal.tok
                     (create_access_token "k" 10 (some "a@x.com")
                       c9Record.user_name c9Record.company)),
                   ("token_type", JVal.s "bearer"),
                   ("expires_in", JVal.i accessTokenExpireSeconds),
                   ("user_data", JVal.obj
                     [("email", JLeaf.s "a@x.com"),
                      ("name", JLeaf.opt c9Record.user_name),
                      ("company", JLeaf.opt c9Record.company)])] ∧
    (NewMainPy.verify_otp "k" 10 "a@x.com" (OtpRecord.code c9Record) c9State).1
      = Except.ok [("success", JVal.b true),
                   ("message", JVal.s "OTP verified"),
                   ("access_token", JVal.tok
                     (create_access_token "k" 10 (some "a@x.com")
                       c9Record.user_name c9Record.company)),
                   ("token_type", JVal.s "bearer"),
                   ("expires_in", JVal.i accessTokenExpireSeconds)] :=
  c9_verify_otp_bodies_across_variants "k" "a@x.com" 10 c9State c9Record
    rfl (by decide) (by decide)

/-- C10 counterexample: the window for `a@x.com` has `count = 3` and
started 1000 s ago, so the request is admitted by window rollover.
After the failed send the stored count is 1 — reset, NOT "one higher
than before the call" (which would be 4). -/
theorem c10_counterexample :
    c10State.rate_limit_store.lookup "a@x.com"
      = some { last_request := 0, count := 3 } ∧
    (MainPy.send_otp false 1000 "a@x.com" none none "222222" c10State).1
      = Except.error ⟨500, "Failed to send email"⟩ ∧
    ((MainPy.send_otp false 1000 "a@x.com" none none "222222" c10State).2).rate_limit_store.lookup "a@x.com"
      = some { last_request := 1000, count := 1 } ∧
    ((MainPy.send_otp false 1000 "a@x.com" none none "222222" c10State).2).rate_limit_store.lookup "a@x.com"
      ≠ some { last_request := 1000, count := 3 + 1 } :=
  ⟨rfl, rfl, rfl, by decide⟩

/-- C10 (amended): the rate-limiter mutation made by an admitted
`/send-otp` survives a send failure — it is never rolled back. Within
a live window the count is one higher and the timestamp updated; on a
first request or after window rollover the stored window is
`(now, 1)`. -/
theorem c10_rate_admission_survives_send_failure
    (now : Int) (E : String) (name company : Option String) (otp : String)
    (s : ServerState) :
    (∀ r, s.rate_limit_store.lookup E = some r → ¬ now - r.last_request > 900 →
      r.count < 3 →
      (MainPy.send_otp false now E name company otp s).1
        = Except.error ⟨500, "Failed to send email"⟩ ∧
      ((MainPy.send_otp false now E name company otp s).2).rate_limit_store.lookup E
        = some { last_request := now, count := r.count + 1 }) ∧
    (∀ r, s.rate_limit_store.lookup E = some r → now - r.last_request > 900 →
      ((MainPy.send_otp false now E name company otp s).2).rate_limit_store.lookup E
        = some { last_request := now, count := 1 }) ∧
    (s.rate_limit_store.lookup E = none →
      ((MainPy.send_otp false now E name company otp s).2).rate_limit_store.lookup E
        = some { last_request := now, count := 1 }) := by
  refine ⟨?_, ?_, ?_⟩
  · intro r hr hin hc
    have hcr := check_rate_limit_increment now E s.rate_limit_store r hr hin hc
    have hgrant : (check_rate_limit now E s.rate_limit_store).1 = true := by rw [hcr]
    have hm := MainPy.send_otp_failed now E name company otp s hgrant
    refine ⟨by rw [hm], ?_⟩
    rw [hm, hcr]
    exact Store.lookup_set_self _ _ _
  · intro r hr hout
    have hcr := check_rate_limit_reset now E s.rate_limit_store r hr hout
    have hgrant : (check_rate_limit now E s.rate_limit_store).1 = true := by rw [hcr]
    have hm := MainPy.send_otp_failed now E name company otp s hgrant
    rw [hm, hcr]
    exact Store.lookup_set_self _ _ _
  · intro hr
    have hcr := check_rate_limit_fresh now E s.rate_limit_store hr
    have hgrant : (check_rate_limit now E s.rate_limit_store).1 = true := by rw [hcr]
    have hm := MainPy.send_otp_failed now E name company otp s hgrant
    rw [hm, hcr]
    exact Store.lookup_set_self _ _ _

/-- Witness for the amended C10: a live window `(0, 1)`, an admitted
request at 100 whose send fails, leaving the window `(100, 2)`. -/
theorem c10_amended_witness :
    (MainPy.send_otp false 100 "a@x.com" none none "222222"
        { otp_store := [],
          rate_limit_store := [("a@x.com", { last_request := 0, count := 1 })],
          user_sessions := [] }).1
      = Except.error ⟨500, "Failed to send email"⟩ ∧
    ((MainPy.send_otp false 100 "a@x.com" none none "222222"
        { otp_store := [],
          rate_limit_store := [("a@x.com", { last_request := 0, count := 1 })],
          user_sessions := [] }).2).rate_limit_store.lookup "a@x.com"
      = some { last_request := 100, count := 1 + 1 } :=
  (c10_rate_admission_survives_send_failure 100 "a@x.com" none none "222222"
      { otp_store := [],
        rate_limit_store := [("a@x.com", { last_request := 0, count := 1 })],
        user_sessions := [] }).1
    { last_request := 0, count := 1 } rfl (by decide) (by decide)
